import Mathlib

/-!
Verification of `src/pose-landmarker-web/main.js` (osc-hackathon2025).

The metrics engine (`calculateDistance`, `calculateAngle`), the model
resolution logic (`tryLocalThenFallback`), the frame scheduler
(`processFrame`), the FPS readout (`updateFPS`) and the session start
(`startWebcam`) are embedded shallowly.  Numeric landmark coordinates are
modelled over the reals (the source computes with `Math.sqrt` / `Math.acos`);
timestamps and the FPS window are modelled over the rationals, where the
source only compares, subtracts, divides and rounds.
A possibly-null landmark argument is an `Option Landmark`: `none` is the
JavaScript `null`/`undefined` that the `!landmark` guards test for.
-/

namespace PoseWeb

/-- A pose landmark as produced by the detector: normalized `x`, `y`,
`z` coordinates and a `visibility` confidence score (source: the landmark
objects consumed at `main.js:43-65`). -/
structure Landmark where
  x : ℝ
  y : ℝ
  z : ℝ
  visibility : ℝ

/-- `calculateDistance` (`main.js:43-49`): returns `0` when either argument
is null, otherwise the Euclidean distance of the `(x, y)` coordinates. -/
noncomputable def calculateDistance (landmark1 landmark2 : Option Landmark) : ℝ :=
  match landmark1, landmark2 with
  | some l1, some l2 =>
      Real.sqrt ((l1.x - l2.x) * (l1.x - l2.x) + (l1.y - l2.y) * (l1.y - l2.y))
  | _, _ => 0

/-- `calculateAngle` (`main.js:54-65`): returns `0` when any argument is
null or when side `a` or side `b` is `0`; otherwise the law-of-cosines
angle at `point2`, converted from radians to degrees. -/
noncomputable def calculateAngle (point1 point2 point3 : Option Landmark) : ℝ :=
  match point1, point2, point3 with
  | some p1, some p2, some p3 =>
      let a := calculateDistance (some p1) (some p2)
      let b := calculateDistance (some p2) (some p3)
      let c := calculateDistance (some p1) (some p3)
      if a = 0 ∨ b = 0 then 0
      else Real.arccos ((a * a + b * b - c * c) / (2 * a * b)) * (180 / Real.pi)
  | _, _, _ => 0

/-- The argument passed to `Math.acos` at `main.js:63`, built from the three
pairwise side lengths. -/
noncomputable def cosineArgument (p1 p2 p3 : Landmark) : ℝ :=
  let a := calculateDistance (some p1) (some p2)
  let b := calculateDistance (some p2) (some p3)
  let c := calculateDistance (some p1) (some p3)
  (a * a + b * b - c * c) / (2 * a * b)

lemma calculateDistance_nonneg (o1 o2 : Option Landmark) :
    0 ≤ calculateDistance o1 o2 := by
  cases o1 <;> cases o2 <;> simp [calculateDistance]

lemma calculateDistance_comm (o1 o2 : Option Landmark) :
    calculateDistance o1 o2 = calculateDistance o2 o1 := by
  cases o1 <;> cases o2 <;> simp [calculateDistance]
  ring_nf

lemma calculateDistance_eq_zero_iff (l1 l2 : Landmark) :
    calculateDistance (some l1) (some l2) = 0 ↔ l1.x = l2.x ∧ l1.y = l2.y := by
  simp only [calculateDistance]
  rw [Real.sqrt_eq_zero']
  constructor
  · intro h
    have hx : (l1.x - l2.x) * (l1.x - l2.x) = 0 := by
      nlinarith [mul_self_nonneg (l1.x - l2.x), mul_self_nonneg (l1.y - l2.y)]
    have hy : (l1.y - l2.y) * (l1.y - l2.y) = 0 := by
      nlinarith [mul_self_nonneg (l1.x - l2.x), mul_self_nonneg (l1.y - l2.y)]
    constructor
    · have := mul_self_eq_zero.mp hx
      linarith
    · have := mul_self_eq_zero.mp hy
      linarith
  · rintro ⟨hx, hy⟩
    rw [hx, hy]
    simp

end PoseWeb

namespace PoseWeb

/-- C8: `calculateDistance` is symmetric for every pair of inputs, present
or absent. -/
theorem calculateDistance_symm (a b : Option Landmark) :
    calculateDistance a b = calculateDistance b a :=
  calculateDistance_comm a b

/-- C7: `calculateAngle` is symmetric under swapping its endpoint
arguments, for every triple of inputs, present or absent. -/
theorem calculateAngle_endpoint_swap (a b c : Option Landmark) :
    calculateAngle a b c = calculateAngle c b a := by
  cases a <;> cases b <;> cases c <;> try rfl
  case some.some.some p1 p2 p3 =>
    simp only [calculateAngle]
    rw [calculateDistance_comm (some p3) (some p2),
        calculateDistance_comm (some p2) (some p1),
        calculateDistance_comm (some p3) (some p1)]
    rcases eq_or_ne (calculateDistance (some p1) (some p2)) 0 with h12 | h12
    · simp [h12]
    · rcases eq_or_ne (calculateDistance (some p2) (some p3)) 0 with h23 | h23
      · simp [h23]
      · rw [if_neg (by tauto), if_neg (by tauto)]
        congr 1
        congr 1
        ring

/-- C6: for the right-angle configuration a=(0,1), b=(0,0), c=(1,0), all
landmarks present, `calculateAngle` returns exactly 90 degrees. -/
theorem calculateAngle_rightAngle :
    calculateAngle (some ⟨0, 1, 0, 1⟩) (some ⟨0, 0, 0, 1⟩) (some ⟨1, 0, 0, 1⟩) = 90 := by
  have ha : calculateDistance (some ⟨0, 1, 0, 1⟩) (some ⟨0, 0, 0, 1⟩) = 1 := by
    norm_num [calculateDistance]
  have hb : calculateDistance (some ⟨0, 0, 0, 1⟩) (some ⟨1, 0, 0, 1⟩) = 1 := by
    norm_num [calculateDistance]
  have hc : calculateDistance (some ⟨0, 1, 0, 1⟩) (some ⟨1, 0, 0, 1⟩) = Real.sqrt 2 := by
    norm_num [calculateDistance]
  simp only [calculateAngle]
  rw [ha, hb, hc]
  rw [if_neg (by norm_num)]
  rw [Real.mul_self_sqrt (by norm_num : (0:ℝ) ≤ 2)]
  norm_num
  field_simp
  ring

/-- C2: `calculateAngle` returns 0 whenever any input landmark is absent or
any of the three pairwise side lengths is 0 (for side `c` this is forced by
the arithmetic: a zero third side makes the two remaining sides equal and
the cosine argument 1, so the arccosine is 0). -/
theorem calculateAngle_degenerate (o1 o2 o3 : Option Landmark)
    (h : o1 = none ∨ o2 = none ∨ o3 = none ∨
         calculateDistance o1 o2 = 0 ∨ calculateDistance o2 o3 = 0 ∨
         calculateDistance o1 o3 = 0) :
    calculateAngle o1 o2 o3 = 0 := by
  cases o1 <;> cases o2 <;> cases o3 <;> try rfl
  case some.some.some p1 p2 p3 =>
    simp only [reduceCtorEq, false_or] at h
    simp only [calculateAngle]
    rcases eq_or_ne (calculateDistance (some p1) (some p2)) 0 with h12 | h12
    · simp [h12]
    · rcases eq_or_ne (calculateDistance (some p2) (some p3)) 0 with h23 | h23
      · simp [h23]
      · have h13 : calculateDistance (some p1) (some p3) = 0 := by tauto
        obtain ⟨hx, hy⟩ := (calculateDistance_eq_zero_iff p1 p3).mp h13
        have hba : calculateDistance (some p2) (some p3)
            = calculateDistance (some p1) (some p2) := by
          rw [calculateDistance_comm (some p1) (some p2)]
          simp only [calculateDistance]
          rw [hx, hy]
        rw [if_neg (by tauto), h13, hba]
        have harg : (calculateDistance (some p1) (some p2) * calculateDistance (some p1) (some p2)
            + calculateDistance (some p1) (some p2) * calculateDistance (some p1) (some p2)
            - 0 * 0)
            / (2 * calculateDistance (some p1) (some p2) * calculateDistance (some p1) (some p2))
            = 1 := by
          field_simp
          ring
        rw [harg, Real.arccos_one, zero_mul]

lemma cosArg_bounds (p1 p2 p3 : Landmark)
    (ha : calculateDistance (some p1) (some p2) ≠ 0)
    (hb : calculateDistance (some p2) (some p3) ≠ 0) :
    -1 ≤ cosineArgument p1 p2 p3 ∧ cosineArgument p1 p2 p3 ≤ 1 := by
  have hA : (0:ℝ) ≤ (p1.x - p2.x) * (p1.x - p2.x) + (p1.y - p2.y) * (p1.y - p2.y) :=
    add_nonneg (mul_self_nonneg _) (mul_self_nonneg _)
  have hB : (0:ℝ) ≤ (p2.x - p3.x) * (p2.x - p3.x) + (p2.y - p3.y) * (p2.y - p3.y) :=
    add_nonneg (mul_self_nonneg _) (mul_self_nonneg _)
  have hC : (0:ℝ) ≤ (p1.x - p3.x) * (p1.x - p3.x) + (p1.y - p3.y) * (p1.y - p3.y) :=
    add_nonneg (mul_self_nonneg _) (mul_self_nonneg _)
  have harg : cosineArgument p1 p2 p3 =
      (calculateDistance (some p1) (some p2) * calculateDistance (some p1) (some p2)
        + calculateDistance (some p2) (some p3) * calculateDistance (some p2) (some p3)
        - calculateDistance (some p1) (some p3) * calculateDistance (some p1) (some p3))
      / (2 * calculateDistance (some p1) (some p2) * calculateDistance (some p2) (some p3)) := by
    simp only [cosineArgument]
  set a := calculateDistance (some p1) (some p2) with ha_def
  set b := calculateDistance (some p2) (some p3) with hb_def
  set c := calculateDistance (some p1) (some p3) with hc_def
  have ha0 : 0 ≤ a := by rw [ha_def]; exact calculateDistance_nonneg _ _
  have hb0 : 0 ≤ b := by rw [hb_def]; exact calculateDistance_nonneg _ _
  have hap : 0 < a := lt_of_le_of_ne ha0 (Ne.symm ha)
  have hbp : 0 < b := lt_of_le_of_ne hb0 (Ne.symm hb)
  have ha2 : a * a = (p1.x - p2.x) * (p1.x - p2.x) + (p1.y - p2.y) * (p1.y - p2.y) := by
    rw [ha_def]; simp only [calculateDistance]; exact Real.mul_self_sqrt hA
  have hb2 : b * b = (p2.x - p3.x) * (p2.x - p3.x) + (p2.y - p3.y) * (p2.y - p3.y) := by
    rw [hb_def]; simp only [calculateDistance]; exact Real.mul_self_sqrt hB
  have hc2 : c * c = (p1.x - p3.x) * (p1.x - p3.x) + (p1.y - p3.y) * (p1.y - p3.y) := by
    rw [hc_def]; simp only [calculateDistance]; exact Real.mul_self_sqrt hC
  have key : (a * a + b * b - c * c) * (a * a + b * b - c * c)
      ≤ (2 * a * b) * (2 * a * b) := by
    have h4 : (2 * a * b) * (2 * a * b) = 4 * (a * a) * (b * b) := by ring
    rw [h4, ha2, hb2, hc2]
    nlinarith [sq_nonneg ((p1.x - p2.x) * (p2.y - p3.y) - (p1.y - p2.y) * (p2.x - p3.x))]
  have habs : |a * a + b * b - c * c| ≤ 2 * a * b := by
    have h1 := Real.sqrt_le_sqrt key
    rwa [Real.sqrt_mul_self_eq_abs,
         Real.sqrt_mul_self (le_of_lt (mul_pos (mul_pos two_pos hap) hbp))] at h1
  have h2ab : (0:ℝ) < 2 * a * b := mul_pos (mul_pos two_pos hap) hbp
  constructor
  · rw [harg, le_div_iff₀ h2ab]
    have := (abs_le.mp habs).1
    linarith
  · rw [harg, div_le_one h2ab]
    exact (abs_le.mp habs).2

/-- C5: for three present landmarks whose sides `a` and `b` are nonzero,
the argument handed to the arccosine lies in [-1, 1] (triangle inequality /
Cauchy-Schwarz), and `calculateAngle` returns a value in [0, 180]. -/
theorem calculateAngle_wellDefined (p1 p2 p3 : Landmark)
    (ha : calculateDistance (some p1) (some p2) ≠ 0)
    (hb : calculateDistance (some p2) (some p3) ≠ 0) :
    (-1 ≤ cosineArgument p1 p2 p3 ∧ cosineArgument p1 p2 p3 ≤ 1) ∧
    0 ≤ calculateAngle (some p1) (some p2) (some p3) ∧
    calculateAngle (some p1) (some p2) (some p3) ≤ 180 := by
  obtain ⟨h1, h2⟩ := cosArg_bounds p1 p2 p3 ha hb
  have hangle : calculateAngle (some p1) (some p2) (some p3)
      = Real.arccos (cosineArgument p1 p2 p3) * (180 / Real.pi) := by
    simp only [calculateAngle, cosineArgument]
    rw [if_neg (not_or.mpr ⟨ha, hb⟩)]
  have hk : (0:ℝ) ≤ 180 / Real.pi := le_of_lt (div_pos (by norm_num) Real.pi_pos)
  refine ⟨⟨h1, h2⟩, ?_, ?_⟩
  · rw [hangle]
    exact mul_nonneg (Real.arccos_nonneg _) hk
  · rw [hangle]
    have h3 := Real.arccos_le_pi (cosineArgument p1 p2 p3)
    have h4 := mul_le_mul_of_nonneg_right h3 hk
    have h5 : Real.pi * (180 / Real.pi) = 180 := by
      field_simp
    linarith

/-- Witness for C5 at the concrete right-angle configuration. -/
theorem calculateAngle_wellDefined_witness :
    (-1 ≤ cosineArgument ⟨0, 1, 0, 1⟩ ⟨0, 0, 0, 1⟩ ⟨1, 0, 0, 1⟩ ∧
     cosineArgument ⟨0, 1, 0, 1⟩ ⟨0, 0, 0, 1⟩ ⟨1, 0, 0, 1⟩ ≤ 1) ∧
    0 ≤ calculateAngle (some ⟨0, 1, 0, 1⟩) (some ⟨0, 0, 0, 1⟩) (some ⟨1, 0, 0, 1⟩) ∧
    calculateAngle (some ⟨0, 1, 0, 1⟩) (some ⟨0, 0, 0, 1⟩) (some ⟨1, 0, 0, 1⟩) ≤ 180 :=
  calculateAngle_wellDefined ⟨0, 1, 0, 1⟩ ⟨0, 0, 0, 1⟩ ⟨1, 0, 0, 1⟩
    (by norm_num [calculateDistance]) (by norm_num [calculateDistance])

/-- Two possibly-null landmark arguments agree observably when they have the
same presence (both null or both non-null) and, when present, the same `x`
and `y` coordinates; `z` and `visibility` are unconstrained. -/
def sameObservable : Option Landmark → Option Landmark → Prop
  | none, none => True
  | some a, some b => a.x = b.x ∧ a.y = b.y
  | _, _ => False

lemma calculateDistance_congr {o1 o2 o1' o2' : Option Landmark}
    (h1 : sameObservable o1 o1') (h2 : sameObservable o2 o2') :
    calculateDistance o1 o2 = calculateDistance o1' o2' := by
  cases o1 <;> cases o1' <;> cases o2 <;> cases o2' <;>
    simp only [sameObservable] at h1 h2 <;> try rfl
  case some.some.some.some a a' b b' =>
    simp only [calculateDistance, h1.1, h1.2, h2.1, h2.2]

/-- C10: neither `calculateDistance` nor `calculateAngle` inspects `z` or
`visibility`: two runs whose inputs agree on presence and on the `x`, `y`
coordinates of the present arguments return identical outputs. -/
theorem metrics_ignore_visibility (o1 o2 o3 o1' o2' o3' : Option Landmark)
    (h1 : sameObservable o1 o1') (h2 : sameObservable o2 o2')
    (h3 : sameObservable o3 o3') :
    calculateDistance o1 o2 = calculateDistance o1' o2' ∧
    calculateAngle o1 o2 o3 = calculateAngle o1' o2' o3' := by
  refine ⟨calculateDistance_congr h1 h2, ?_⟩
  cases o1 <;> cases o1' <;> cases o2 <;> cases o2' <;> cases o3 <;> cases o3' <;>
    simp only [sameObservable] at h1 h2 h3 <;> try rfl
  case some.some.some.some.some.some p1 p1' p2 p2' p3 p3' =>
    have d12 : calculateDistance (some p1) (some p2)
        = calculateDistance (some p1') (some p2') := calculateDistance_congr h1 h2
    have d23 : calculateDistance (some p2) (some p3)
        = calculateDistance (some p2') (some p3') := calculateDistance_congr h2 h3
    have d13 : calculateDistance (some p1) (some p3)
        = calculateDistance (some p1') (some p3') := calculateDistance_congr h1 h3
    simp only [calculateAngle]
    rw [d12, d23, d13]

/-- Witness for C10: inputs agreeing on x/y and presence, with different z
and visibility values. -/
theorem metrics_ignore_visibility_witness :
    calculateDistance (some ⟨0, 1, 5, 9⟩) (some ⟨2, 3, 6, 8⟩)
      = calculateDistance (some ⟨0, 1, 7, 2⟩) (some ⟨2, 3, 4, 3⟩) ∧
    calculateAngle (some ⟨0, 1, 5, 9⟩) (some ⟨2, 3, 6, 8⟩) none
      = calculateAngle (some ⟨0, 1, 7, 2⟩) (some ⟨2, 3, 4, 3⟩) none :=
  metrics_ignore_visibility (some ⟨0, 1, 5, 9⟩) (some ⟨2, 3, 6, 8⟩) none
    (some ⟨0, 1, 7, 2⟩) (some ⟨2, 3, 4, 3⟩) none
    ⟨rfl, rfl⟩ ⟨rfl, rfl⟩ trivial

/-- The module-scoped state read and written by one cycle of the frame
scheduler `processFrame` (`main.js:165-183`): the `isStreaming` flag, the
`lastVideoTime` of the last processed frame (initially `-1`), and whether a
`landmarker` handle is currently non-null. -/
structure FrameState where
  isStreaming : Bool
  lastVideoTime : ℚ
  hasLandmarker : Bool
  deriving DecidableEq

/-- The observable work performed by one cycle of `processFrame`:
whether `detectForVideo` was invoked (`main.js:183` — the drawing and
metric/`console.log` work happens only on its result, inside the same
branch), whether the overlay canvas was cleared (`main.js:177`), whether
the FPS readout was updated (`main.js:305`), and whether another cycle was
scheduled via `requestAnimationFrame` (`main.js:170`/`main.js:308`). -/
structure FrameEffects where
  detected : Bool
  canvasCleared : Bool
  fpsUpdated : Bool
  rescheduled : Bool
  deriving DecidableEq

/-- `processFrame` (`main.js:165-183`), one scheduling cycle given the
current `video.currentTime`: returns early when not streaming; reschedules
and does nothing else when the timestamp is unchanged; otherwise records
the timestamp, clears the canvas, runs detection only when the landmarker
handle is non-null, updates FPS and reschedules. -/
def processFrame (s : FrameState) (videoTime : ℚ) : FrameState × FrameEffects :=
  if !s.isStreaming then (s, ⟨false, false, false, false⟩)
  else if videoTime = s.lastVideoTime then (s, ⟨false, false, false, true⟩)
  else ({ s with lastVideoTime := videoTime }, ⟨s.hasLandmarker, true, true, true⟩)

/-- C4: the scheduler never submits the same frame timestamp twice in
direct succession.  While streaming: a cycle whose timestamp equals the
last processed one only reschedules (no detection, no canvas clear, no FPS
update, state unchanged), and after any cycle has processed timestamp `t`,
an immediately following cycle with the same `t` only reschedules. -/
theorem scheduler_no_duplicate_detection (s : FrameState) (t : ℚ)
    (hs : s.isStreaming = true) :
    (t = s.lastVideoTime →
        processFrame s t = (s, ⟨false, false, false, true⟩)) ∧
    processFrame (processFrame s t).1 t
      = ((processFrame s t).1, ⟨false, false, false, true⟩) := by
  constructor
  · intro h
    simp [processFrame, hs, h]
  · rcases eq_or_ne t s.lastVideoTime with h | h
    · simp [processFrame, hs, h]
    · simp [processFrame, hs, h]

/-- Witness for C4: a streaming state with `lastVideoTime = -1` and a fresh
frame at time 0. -/
theorem scheduler_no_duplicate_detection_witness :
    ((0 : ℚ) = (⟨true, -1, true⟩ : FrameState).lastVideoTime →
        processFrame ⟨true, -1, true⟩ 0
          = (⟨true, -1, true⟩, ⟨false, false, false, true⟩)) ∧
    processFrame (processFrame ⟨true, -1, true⟩ 0).1 0
      = ((processFrame ⟨true, -1, true⟩ 0).1, ⟨false, false, false, true⟩) :=
  scheduler_no_duplicate_detection ⟨true, -1, true⟩ 0 rfl

/-- The session-level state touched by `startWebcam` (`main.js:314-365`)
after the webcam stream and video metadata are ready: the streaming flag,
the landmarker handle, whether a `processFrame` loop has been started, and
the enable button's label and disabled state. -/
structure SessionState where
  isStreaming : Bool
  hasLandmarker : Bool
  loopStarted : Bool
  enableBtnText : String
  enableBtnDisabled : Bool
  deriving DecidableEq

/-- `startWebcam` (`main.js:314-365`) from the point where the webcam is
ready and `initializeLandmarker` has returned (`main.js:341`).
`initializeLandmarker` itself first closes any landmarker and cancels any
pending animation frame (`main.js:100-109`); on failure (`initSuccess =
false`) `startWebcam` sets `isStreaming`, updates the button and returns
at `main.js:348` without calling `processFrame()`; on success it does the
same and then starts the loop (`main.js:357`). -/
def startWebcam (initSuccess : Bool) (s : SessionState) : SessionState :=
  let s := { s with hasLandmarker := initSuccess, loopStarted := false }
  if !initSuccess then
    { s with isStreaming := true, enableBtnText := "Stop Webcam",
             enableBtnDisabled := false }
  else
    { s with isStreaming := true, enableBtnText := "Stop Webcam",
             enableBtnDisabled := false, loopStarted := true }

/-- C1 (code evaluated at the failing input): when `initializeLandmarker`
fails, `startWebcam` leaves the session streaming but returns without
starting the frame-processing loop — `loopStarted` is `false`, unlike the
success path — so the no-landmarker branch of `processFrame`
(`main.js:299-302`), which would skip detection and keep rescheduling (as
witnessed by the concrete cycle in the last conjunct), is never entered. -/
theorem startWebcam_initFailure_no_loop :
    (∀ s : SessionState,
        (startWebcam false s).isStreaming = true ∧
        (startWebcam false s).loopStarted = false ∧
        (startWebcam true s).loopStarted = true) ∧
    processFrame ⟨true, -1, false⟩ 0
      = (⟨true, 0, false⟩, ⟨false, true, true, true⟩) := by
  constructor
  · intro s
    exact ⟨rfl, rfl, rfl⟩
  · rfl

/-- Outcome of the `fetch(localPath, { method: 'HEAD' })` presence probe at
`main.js:75`: either a response with its `ok` flag, or a thrown network
error (the `catch` at `main.js:80`). -/
inductive ProbeOutcome where
  | response (ok : Bool)
  | fetchError
  deriving DecidableEq

/-- `MODEL_LOCAL` (`main.js:13`). -/
def MODEL_LOCAL (variant : String) : String :=
  "/models/pose_landmarker_" ++ variant ++ ".task"

/-- `MODEL_FALLBACK` (`main.js:14-20`): as shipped it returns the empty
placeholder string for every variant (the TODO remote URL). -/
def MODEL_FALLBACK : String → String :=
  fun _ => ""

/-- `tryLocalThenFallback` (`main.js:70-92`), parametrized by the
configured `MODEL_FALLBACK` function: a probe response with `ok` returns
the local path; otherwise (a non-ok response or a thrown fetch error) the
fallback is consulted — a truthy (non-empty) fallback path is returned,
an empty one raises the descriptive error of `main.js:91`. -/
def tryLocalThenFallbackWith (fallback : String → String) (variant : String)
    (probe : ProbeOutcome) : Except String String :=
  match probe with
  | .response true => .ok (MODEL_LOCAL variant)
  | _ =>
    let fallbackPath := fallback variant
    if fallbackPath ≠ "" then .ok fallbackPath
    else .error ("No model available for variant: " ++ variant)

/-- `tryLocalThenFallback` as shipped, with the placeholder fallback. -/
def tryLocalThenFallback : String → ProbeOutcome → Except String String :=
  tryLocalThenFallbackWith MODEL_FALLBACK

/-- C3: model resolution for every variant: a successful local presence
probe yields the local path `/models/pose_landmarker_{variant}.task`
without consulting the fallback; a failed probe with a configured
(non-empty) remote fallback yields the remote path; a failed probe with no
fallback configured raises the descriptive resolution error. -/
theorem tryLocalThenFallback_spec (fallback : String → String) (variant : String)
    (probe : ProbeOutcome) :
    (probe = .response true →
        tryLocalThenFallbackWith fallback variant probe
          = .ok (MODEL_LOCAL variant)) ∧
    (probe ≠ .response true → fallback variant ≠ "" →
        tryLocalThenFallbackWith fallback variant probe
          = .ok (fallback variant)) ∧
    (probe ≠ .response true → fallback variant = "" →
        tryLocalThenFallbackWith fallback variant probe
          = .error ("No model available for variant: " ++ variant)) := by
  refine ⟨?_, ?_, ?_⟩
  · rintro rfl
    rfl
  · intro hp hf
    cases probe with
    | response ok =>
      cases ok
      · simp [tryLocalThenFallbackWith, hf]
      · exact absurd rfl hp
    | fetchError => simp [tryLocalThenFallbackWith, hf]
  · intro hp hf
    cases probe with
    | response ok =>
      cases ok
      · simp [tryLocalThenFallbackWith, hf]
      · exact absurd rfl hp
    | fetchError => simp [tryLocalThenFallbackWith, hf]

/-- Witness for C3: the shipped configuration with a present local "lite"
model resolves to the local path. -/
theorem tryLocalThenFallback_spec_witness :
    tryLocalThenFallbackWith MODEL_FALLBACK "lite" (.response true)
      = .ok (MODEL_LOCAL "lite") :=
  (tryLocalThenFallback_spec MODEL_FALLBACK "lite" (.response true)).1 rfl

/-- `FPS_WINDOW_SIZE` (`main.js:38`). -/
def FPS_WINDOW_SIZE : ℕ := 30

/-- JavaScript `Math.round` on the exact rational value: round half up,
i.e. the floor of `q + 1/2`. -/
def jsRound (q : ℚ) : ℤ :=
  ⌊q + 1 / 2⌋

/-- The window update of `updateFPS` (`main.js:146-152`): push the new
timestamp, then `shift()` the oldest one out when the window exceeds
`FPS_WINDOW_SIZE`. -/
def pushTimestamp (fpsTimestamps : List ℚ) (now : ℚ) : List ℚ :=
  let ts := fpsTimestamps ++ [now]
  if FPS_WINDOW_SIZE < ts.length then ts.tail else ts

/-- The display update of `updateFPS` (`main.js:155-159`): with at least
two timestamps in the window, show the rounded
`(count - 1) * 1000 / (newest - oldest)`; otherwise leave the display
untouched (`none`). -/
def fpsReadout (ts : List ℚ) : Option ℤ :=
  if 2 ≤ ts.length then
    some (jsRound (((ts.length : ℚ) - 1) * 1000 / (ts.getLastD 0 - ts.headD 0)))
  else none

/-- `updateFPS` (`main.js:145-160`): the new window and the newly
displayed FPS value, if any. -/
def updateFPS (fpsTimestamps : List ℚ) (now : ℚ) : List ℚ × Option ℤ :=
  (pushTimestamp fpsTimestamps now, fpsReadout (pushTimestamp fpsTimestamps now))

lemma pushTimestamp_getLastD (ts : List ℚ) (now : ℚ) :
    (pushTimestamp ts now).getLastD 0 = now := by
  cases ts with
  | nil => rfl
  | cons h t =>
    simp only [pushTimestamp]
    by_cases hs : FPS_WINDOW_SIZE < ((h :: t) ++ [now]).length
    · rw [if_pos hs]
      exact List.getLastD_concat _ _ _
    · rw [if_neg hs]
      exact List.getLastD_concat _ _ _

/-- C9 counterexample: with window [0] and a new timestamp 3, the code
displays `round(1000/3) = 333`, which differs from the exact value
`(count - 1) * 1000 / (newest - oldest) = 1000/3` of the claim. -/
theorem updateFPS_formula_counterexample :
    (updateFPS [0] 3).2 = some 333 ∧
    (333 : ℚ) ≠ ((2 : ℚ) - 1) * 1000 / (3 - 0) := by
  constructor
  · show fpsReadout (pushTimestamp [0] 3) = some 333
    have hp : pushTimestamp [0] 3 = [0, 3] := rfl
    rw [hp]
    simp only [fpsReadout, jsRound, List.getLastD, List.headD, List.length_cons,
      List.length_nil]
    norm_num
  · norm_num

/-- C9 (amended): the FPS window holds at most the last
`FPS_WINDOW_SIZE = 30` timestamps, the oldest being evicted first, and
whenever the window holds at least two timestamps the displayed value is
`(count - 1) * 1000 / (newest - oldest)` rounded to the nearest integer
(`Math.round`), with the newest entry being the timestamp just pushed. -/
theorem updateFPS_spec (ts : List ℚ) (now : ℚ)
    (hlen : ts.length ≤ FPS_WINDOW_SIZE) :
    (updateFPS ts now).1.length ≤ FPS_WINDOW_SIZE ∧
    (ts.length < FPS_WINDOW_SIZE → (updateFPS ts now).1 = ts ++ [now]) ∧
    (ts.length = FPS_WINDOW_SIZE → (updateFPS ts now).1 = (ts ++ [now]).tail) ∧
    (2 ≤ (updateFPS ts now).1.length →
        (updateFPS ts now).2 = some (jsRound
          ((((updateFPS ts now).1.length : ℚ) - 1) * 1000
            / (now - (updateFPS ts now).1.headD 0)))) ∧
    ((updateFPS ts now).1.length < 2 → (updateFPS ts now).2 = none) := by
  have h1 : (updateFPS ts now).1 = pushTimestamp ts now := rfl
  have h2 : (updateFPS ts now).2 = fpsReadout (pushTimestamp ts now) := rfl
  rw [h1, h2]
  refine ⟨?_, ?_, ?_, ?_, ?_⟩
  · simp only [pushTimestamp]
    by_cases hs : FPS_WINDOW_SIZE < (ts ++ [now]).length
    · rw [if_pos hs]
      simp only [List.length_tail, List.length_append, List.length_singleton]
      omega
    · rw [if_neg hs]
      simp only [List.length_append, List.length_singleton] at hs ⊢
      omega
  · intro h
    simp only [pushTimestamp]
    rw [if_neg (by simp only [List.length_append, List.length_singleton]; omega)]
  · intro h
    simp only [pushTimestamp]
    rw [if_pos (by simp only [List.length_append, List.length_singleton]; omega)]
  · intro h
    simp only [fpsReadout]
    rw [if_pos h, pushTimestamp_getLastD]
  · intro h
    simp only [fpsReadout]
    rw [if_neg (by omega)]

/-- Witness for C9 at the concrete window [0] with new timestamp 3. -/
theorem updateFPS_spec_witness :
    (updateFPS [0] 3).2 = some (jsRound
        ((((updateFPS [0] 3).1.length : ℚ) - 1) * 1000
          / (3 - (updateFPS [0] 3).1.headD 0))) :=
  (updateFPS_spec [0] 3 (by decide)).2.2.2.1 (by decide)

/-- Witness for C2 at a concrete degenerate input: p1 = p3 = (0,0),
p2 = (1,0), so side `c` vanishes while `a` and `b` do not. -/
theorem calculateAngle_degenerate_witness :
    (some (⟨0, 0, 0, 1⟩ : Landmark) = none ∨ some (⟨1, 0, 0, 1⟩ : Landmark) = none ∨
     some (⟨0, 0, 0, 1⟩ : Landmark) = none ∨
     calculateDistance (some ⟨0, 0, 0, 1⟩) (some ⟨1, 0, 0, 1⟩) = 0 ∨
     calculateDistance (some ⟨1, 0, 0, 1⟩) (some ⟨0, 0, 0, 1⟩) = 0 ∨
     calculateDistance (some ⟨0, 0, 0, 1⟩) (some ⟨0, 0, 0, 1⟩) = 0) ∧
    calculateAngle (some ⟨0, 0, 0, 1⟩) (some ⟨1, 0, 0, 1⟩) (some ⟨0, 0, 0, 1⟩) = 0 :=
  ⟨by norm_num [calculateDistance],
   calculateAngle_degenerate _ _ _ (by norm_num [calculateDistance])⟩

end PoseWeb
